import Mathlib

/-!
Verification of the Apollo/Next.js SSR wiring of `react-graphql-ssr`.

The embedded code is `libs/apollo.js` (`initOnContext`, `initApolloClient`,
`withApollo`), `apolloClient.js` (`createApolloClient`), `pages/index.js`
(`IndexPage`) and `gql/allCharacters.js` (the fixed query).  JavaScript
objects become Lean structures; the module-level mutable
`globalApolloClient` and the `typeof window` test become an explicit
`World` state threaded through the functions; the normalized Apollo cache
becomes an association list from query key to result data.
-/

namespace ReactGraphqlSsr

/-- One record returned by the `allCharacters` query: `{ id name }`. -/
structure Character where
  id : Nat
  name : String
  deriving Repr, DecidableEq

/-- The `characters` field of the query result: `{ results { id name } }`. -/
structure CharacterResults where
  results : List Character
  deriving Repr, DecidableEq

/-- The data shape of the fixed `allCharacters` query:
`{ characters { results { id name } } }`. -/
structure QueryData where
  characters : CharacterResults
  deriving Repr, DecidableEq

/-- The cache key under which the normalized Apollo cache stores the result
of the one query this app issues (`query allCharacters` in
`gql/allCharacters.js`). -/
def allCharactersKey : String := "allCharacters"

/-- A serialized normalized-cache object (`NormalizedCacheObject`): a
mapping from query fingerprint to resolved data.  The app has one query,
so entries map a string key to `QueryData`. -/
abbrev Snapshot := List (String × QueryData)

/-- An `ApolloClient` instance as configured by `createApolloClient`:
an identity (to distinguish separately-constructed instances), the
in-memory cache contents, the `ssrMode` flag, and whether `toJSON` has
been overridden to return `null` (done by `initOnContext`). -/
structure ApolloClient where
  id : Nat
  cache : Snapshot
  ssrMode : Bool
  toJSONNull : Bool
  deriving Repr, DecidableEq

/-- The ambient execution environment: whether `typeof window ===
'undefined'` (server), the module-level `globalApolloClient` variable of
`libs/apollo.js`, and a counter supplying identities for newly constructed
clients. -/
structure World where
  isServer : Bool
  globalApolloClient : Option ApolloClient
  nextId : Nat
  deriving Repr, DecidableEq

/-- `createApolloClient(initialState, ctx)` from `apolloClient.js`:
builds `new ApolloClient({ ssrMode: Boolean(ctx), link: ..., cache: new
InMemoryCache().restore(initialState) })`.  `restore` of a missing
(`undefined`) state leaves the cache empty.  The `ctx` argument is only
tested for truthiness, so it is modelled as `Option Unit`. -/
def createApolloClient (initialState : Option Snapshot) (ctx : Option Unit)
    (w : World) : ApolloClient × World :=
  (⟨w.nextId, initialState.getD [], ctx.isSome, false⟩,
   { w with nextId := w.nextId + 1 })

/-- `initApolloClient(initialState, ctx)` from `libs/apollo.js`: on the
server (`typeof window === 'undefined'`) always create a new client; in
the browser lazily create `globalApolloClient` once and reuse it. -/
def initApolloClient (initialState : Option Snapshot) (ctx : Option Unit)
    (w : World) : ApolloClient × World :=
  if w.isServer then
    createApolloClient initialState ctx w
  else
    match w.globalApolloClient with
    | some c => (c, w)
    | none =>
        let r := createApolloClient initialState ctx w
        (r.1, { r.2 with globalApolloClient := some r.1 })

/-- The `NextPageContext` / `NextAppContext` fields that `libs/apollo.js`
reads: whether `ctx.ctx` exists (app context), any already-installed
`ctx.apolloClient`, the serialized `ctx.apolloState`, whether `ctx.res`
is present and finished, and whether `ctx.AppTree` is present. -/
structure Ctx where
  inApp : Bool
  apolloClient : Option ApolloClient
  apolloState : Option Snapshot
  resFinished : Bool
  hasAppTree : Bool
  deriving Repr, DecidableEq

/-- `initOnContext(ctx)` from `libs/apollo.js`: take `ctx.apolloClient`
or build one via `initApolloClient(ctx.apolloState || {}, inAppContext ?
ctx.ctx : ctx)` (either way a truthy context object is passed), override
`apolloClient.toJSON = () => null`, store the client back on the context,
and return the context.  Returns the client, the updated context and the
updated world. -/
def initOnContext (ctx : Ctx) (w : World) : ApolloClient × Ctx × World :=
  let r :=
    match ctx.apolloClient with
    | some c => (c, w)
    | none => initApolloClient (some (ctx.apolloState.getD [])) (some ()) w
  let client := { r.1 with toJSONNull := true }
  (client, { ctx with apolloClient := some client }, r.2)

/-- JSON serialization of the `apolloClient` prop: `initOnContext`
replaces `toJSON` with `() => null`, so `JSON.stringify` turns the client
into `null`; a client whose `toJSON` is untouched survives. -/
def toJSONClient (c : ApolloClient) : Option ApolloClient :=
  if c.toJSONNull then none else some c

/-- The client-selection logic of the `WithApollo` function component in
`libs/apollo.js`: `if (apolloClient) client = apolloClient; else client =
initApolloClient(apolloState, undefined)`. -/
def withApolloClientChoice (apolloClient : Option ApolloClient)
    (apolloState : Option Snapshot) (w : World) : ApolloClient × World :=
  match apolloClient with
  | some c => (c, w)
  | none => initApolloClient apolloState none w

/-- Seeding a client with a resolved result: a cache write installing the
result under a query key (what executing a query against the client's
cache does). -/
def writeCache (c : ApolloClient) (key : String) (d : QueryData) : ApolloClient :=
  { c with cache := (key, d) :: c.cache }

/-! ### Render path (`pages/index.js`) -/

/-- A fragment of rendered React output: text, an element with children,
or a keyed element (`<ul key={...}>`). -/
inductive Html where
  | text : String → Html
  | elem : String → List Html → Html
  | keyed : String → Nat → List Html → Html
  deriving Repr

mutual

/-- All literal text appearing in a rendered fragment, in order. -/
def htmlTexts : Html → List String
  | .text s => [s]
  | .elem _ cs => htmlTextsList cs
  | .keyed _ _ cs => htmlTextsList cs

/-- All literal text appearing in a list of fragments, in order. -/
def htmlTextsList : List Html → List String
  | [] => []
  | h :: t => htmlTexts h ++ htmlTextsList t

end

mutual

/-- The keyed list entries of a rendered fragment, in order: each keyed
element contributes its key paired with its literal text content. -/
def ulEntries : Html → List (Nat × List String)
  | .text _ => []
  | .elem _ cs => ulEntriesList cs
  | .keyed _ k cs => (k, htmlTextsList cs) :: ulEntriesList cs

/-- The keyed list entries of a list of fragments, in order. -/
def ulEntriesList : List Html → List (Nat × List String)
  | [] => []
  | h :: t => ulEntries h ++ ulEntriesList t

end

/-- The three fields destructured from `useQuery(ALL_CHARACTERS)` in
`pages/index.js`: `loading`, `error` (tested only for truthiness) and
`data` (`undefined` until it arrives). -/
structure UseQueryResult where
  loading : Bool
  error : Bool
  data : Option QueryData
  deriving Repr, DecidableEq

/-- The `<h1>Error</h1>` fragment. -/
def errorHtml : Html := .elem "h1" [.text "Error"]

/-- The `<h1>Loading...</h1>` fragment. -/
def loadingHtml : Html := .elem "h1" [.text "Loading..."]

/-- The static heading of the success branch. -/
def headingHtml : Html :=
  .elem "h1" [.elem "h3"
    [.text "Setting up Apollo GraphQL in Next.js with Server Side Rendering"]]

/-- The success branch of `IndexPage`: the static heading followed by
`data.characters.results.map(data => <ul key={data.id}><li>{data.name}</li></ul>)`. -/
def successHtml (d : QueryData) : Html :=
  .elem "fragment"
    [headingHtml,
     .elem "div" (d.characters.results.map fun r =>
       .keyed "ul" r.id [.elem "li" [.text r.name]])]

/-- `IndexPage` from `pages/index.js`: `if (error) return <h1>Error</h1>;
if (loading) return <h1>Loading...</h1>;` then map
`data.characters.results` to `<ul key={id}><li>{name}</li></ul>`.
Accessing `data.characters` of an absent `data` would throw, modelled as
`none`. -/
def IndexPage (q : UseQueryResult) : Option Html :=
  if q.error then some errorHtml
  else if q.loading then some loadingHtml
  else
    match q.data with
    | none => none
    | some d => some (successHtml d)

/-- The `useQuery` state derived from a cache's contents for the one
query: data in the cache means an immediate non-loading success; an empty
cache means the query is in flight (`loading`). -/
def queryStateOf (cache : Snapshot) : UseQueryResult :=
  match cache.lookup allCharactersKey with
  | some d => ⟨false, false, some d⟩
  | none => ⟨true, false, none⟩

/-! ### `WithApollo.getInitialProps` (`libs/apollo.js`) -/

/-- Opaque props produced by the wrapped page's own `getInitialProps`
(or `App.getInitialProps`). -/
abbrev PageProps := List (String × String)

/-- The value returned by `WithApollo.getInitialProps`: the wrapped
page's props, plus (except on the early `return pageProps` path)
`apolloState` extracted from the cache and the `apolloClient` itself. -/
structure IPResult where
  pageProps : PageProps
  apolloState : Option Snapshot
  apolloClient : Option ApolloClient
  deriving Repr, DecidableEq

/-- `WithApollo.getInitialProps(ctx)` from `libs/apollo.js`, for a given
`ssr` option and the wrapped page's props.  `walk` models
`getDataFromTree`: from the client's current cache it produces the cache
contents after the tree render together with a thrown error, if any; the
`try/catch` logs the error (`console.error`) and continues.  The result
is the `IPResult`, the final world, and the console-error log. -/
def getInitialPropsWithApollo (ssr : Bool) (pageProps : PageProps)
    (walk : Snapshot → Snapshot × Option String) (ctx : Ctx) (w : World) :
    IPResult × World × List String :=
  let r := initOnContext ctx w
  let apolloClient := r.1
  let w1 := r.2.2
  if w.isServer then
    if ctx.resFinished then
      (⟨pageProps, none, none⟩, w1, [])
    else if ssr && ctx.hasAppTree then
      let wr := walk apolloClient.cache
      let client := { apolloClient with cache := wr.1 }
      let logs :=
        match wr.2 with
        | some e => ["Error while running getDataFromTree: " ++ e]
        | none => []
      (⟨pageProps, some client.cache, some client⟩, w1, logs)
    else
      (⟨pageProps, some apolloClient.cache, some apolloClient⟩, w1, [])
  else
    (⟨pageProps, some apolloClient.cache, some apolloClient⟩, w1, [])

/-! ### Helper lemmas -/

/-- The keyed entries produced by mapping the result list through the
`<ul key={id}><li>{name}</li></ul>` template are exactly the
`(id, [name])` pairs, in order. -/
theorem ulEntriesList_map_results (l : List Character) :
    ulEntriesList (l.map fun r => Html.keyed "ul" r.id [.elem "li" [.text r.name]]) =
      l.map fun r => (r.id, [r.name]) := by
  induction l with
  | nil => simp [ulEntriesList]
  | cons a t ih =>
      simp [ulEntriesList, ulEntries, htmlTextsList, htmlTexts, ih]

/-- The literal text of the mapped result list is exactly the names, in
order. -/
theorem htmlTextsList_map_results (l : List Character) :
    htmlTextsList (l.map fun r => Html.keyed "ul" r.id [.elem "li" [.text r.name]]) =
      l.map (·.name) := by
  induction l with
  | nil => simp [htmlTextsList]
  | cons a t ih => simp [htmlTextsList, htmlTexts, ih]

/-- The literal text of the success page: the static heading followed by
the record names in response order. -/
theorem htmlTexts_successHtml (d : QueryData) :
    htmlTexts (successHtml d) =
      "Setting up Apollo GraphQL in Next.js with Server Side Rendering" ::
        d.characters.results.map (·.name) := by
  simp [successHtml, headingHtml, htmlTexts, htmlTextsList, htmlTextsList_map_results]

/-- The success page contains no stray keyed entries outside the mapped
list: its entries are exactly the `(id, [name])` pairs. -/
theorem ulEntries_successHtml (d : QueryData) :
    ulEntries (successHtml d) = d.characters.results.map fun r => (r.id, [r.name]) := by
  simp [successHtml, headingHtml, ulEntries, ulEntriesList, ulEntriesList_map_results]

/-! ### Claims -/

/-- C1: every server-side invocation of `initApolloClient` constructs a
fresh client handle, so seeding the client of one request with a result
never makes that result visible to the client of a second request: the
second client is a distinct handle and its cache is exactly its own seed
snapshot, with the seeded key absent unless the second seed itself
contains it. -/
theorem server_requests_no_cache_leak (w : World) (h : w.isServer = true)
    (s1 s2 : Option Snapshot) (ctx1 ctx2 : Option Unit)
    (key : String) (d : QueryData) :
    (initApolloClient s2 ctx2 (initApolloClient s1 ctx1 w).2).1.id ≠
      (writeCache (initApolloClient s1 ctx1 w).1 key d).id ∧
    (initApolloClient s2 ctx2 (initApolloClient s1 ctx1 w).2).1.cache = s2.getD [] ∧
    ((s2.getD []).lookup key = none →
      (initApolloClient s2 ctx2 (initApolloClient s1 ctx1 w).2).1.cache.lookup key = none) := by
  simp [initApolloClient, createApolloClient, writeCache, h]

/-- C1 witness: concrete two-request simulation on a fresh server world,
seeding request 1's client under the query key. -/
theorem server_requests_no_cache_leak_witness :
    (⟨true, none, 0⟩ : World).isServer = true ∧
    ((initApolloClient none none (initApolloClient none none ⟨true, none, 0⟩).2).1.id ≠
        (writeCache (initApolloClient none none ⟨true, none, 0⟩).1 allCharactersKey
          ⟨⟨[⟨1, "Rick"⟩]⟩⟩).id ∧
      (initApolloClient none none (initApolloClient none none ⟨true, none, 0⟩).2).1.cache =
        (none : Option Snapshot).getD [] ∧
      (((none : Option Snapshot).getD []).lookup allCharactersKey = none →
        (initApolloClient none none
            (initApolloClient none none ⟨true, none, 0⟩).2).1.cache.lookup
          allCharactersKey = none)) :=
  ⟨rfl, server_requests_no_cache_leak ⟨true, none, 0⟩ rfl none none none none
    allCharactersKey ⟨⟨[⟨1, "Rick"⟩]⟩⟩⟩

/-- C2: in a server execution context `initApolloClient` always
constructs a new client handle (a fresh identity, distinct from every
previously constructed handle) seeded with the given snapshot, defaulting
to the empty snapshot when none is given. -/
theorem initApolloClient_server_fresh (s : Option Snapshot) (ctx : Option Unit)
    (w : World) (h : w.isServer = true)
    (c : ApolloClient) (hc : c.id < w.nextId) :
    (initApolloClient s ctx w).1.cache = s.getD [] ∧
    (initApolloClient s ctx w).1.id = w.nextId ∧
    (initApolloClient s ctx w).1 ≠ c ∧
    (initApolloClient s ctx w).2.nextId = w.nextId + 1 := by
  refine ⟨by simp [initApolloClient, createApolloClient, h],
    by simp [initApolloClient, createApolloClient, h], ?_,
    by simp [initApolloClient, createApolloClient, h]⟩
  intro he
  have : (initApolloClient s ctx w).1.id = c.id := by rw [he]
  simp [initApolloClient, createApolloClient, h] at this
  omega

/-- C2 witness: on a server world whose counter is past a previously
constructed client, the provisioner returns a fresh, correctly seeded
handle. -/
theorem initApolloClient_server_fresh_witness :
    ((⟨true, none, 5⟩ : World).isServer = true ∧
      (⟨3, [], true, false⟩ : ApolloClient).id < (⟨true, none, 5⟩ : World).nextId) ∧
    ((initApolloClient (some [(allCharactersKey, ⟨⟨[⟨1, "Rick"⟩]⟩⟩)]) none
        ⟨true, none, 5⟩).1.cache =
        (some [(allCharactersKey, ⟨⟨[⟨1, "Rick"⟩]⟩⟩)] : Option Snapshot).getD [] ∧
      (initApolloClient (some [(allCharactersKey, ⟨⟨[⟨1, "Rick"⟩]⟩⟩)]) none
        ⟨true, none, 5⟩).1.id = (⟨true, none, 5⟩ : World).nextId ∧
      (initApolloClient (some [(allCharactersKey, ⟨⟨[⟨1, "Rick"⟩]⟩⟩)]) none
        ⟨true, none, 5⟩).1 ≠ ⟨3, [], true, false⟩ ∧
      (initApolloClient (some [(allCharactersKey, ⟨⟨[⟨1, "Rick"⟩]⟩⟩)]) none
        ⟨true, none, 5⟩).2.nextId = (⟨true, none, 5⟩ : World).nextId + 1) :=
  ⟨⟨rfl, by decide⟩,
    initApolloClient_server_fresh (some [(allCharactersKey, ⟨⟨[⟨1, "Rick"⟩]⟩⟩)]) none
      ⟨true, none, 5⟩ rfl ⟨3, [], true, false⟩ (by decide)⟩

/-- C3: in a browser execution context the second invocation of
`initApolloClient` returns the identical handle produced by the first,
leaves the world unchanged (so no second handle is ever constructed),
ignores its snapshot and context arguments, and the first invocation has
installed that handle as the session-global client. -/
theorem initApolloClient_browser_singleton (w : World) (h : w.isServer = false)
    (s1 s2 : Option Snapshot) (ctx1 ctx2 : Option Unit) :
    (initApolloClient s2 ctx2 (initApolloClient s1 ctx1 w).2).1 =
      (initApolloClient s1 ctx1 w).1 ∧
    (initApolloClient s2 ctx2 (initApolloClient s1 ctx1 w).2).2 =
      (initApolloClient s1 ctx1 w).2 ∧
    (initApolloClient s1 ctx1 w).2.globalApolloClient =
      some (initApolloClient s1 ctx1 w).1 := by
  cases hg : w.globalApolloClient <;>
    simp [initApolloClient, createApolloClient, h, hg]

/-- C3 witness: a fresh browser session invoking the provisioner twice,
with different snapshots, receives the identical handle the second
time. -/
theorem initApolloClient_browser_singleton_witness :
    (⟨false, none, 0⟩ : World).isServer = false ∧
    ((initApolloClient (some [(allCharactersKey, ⟨⟨[⟨2, "Morty"⟩]⟩⟩)]) none
        (initApolloClient none none ⟨false, none, 0⟩).2).1 =
      (initApolloClient none none ⟨false, none, 0⟩).1 ∧
    (initApolloClient (some [(allCharactersKey, ⟨⟨[⟨2, "Morty"⟩]⟩⟩)]) none
        (initApolloClient none none ⟨false, none, 0⟩).2).2 =
      (initApolloClient none none ⟨false, none, 0⟩).2 ∧
    (initApolloClient none none ⟨false, none, 0⟩).2.globalApolloClient =
      some (initApolloClient none none ⟨false, none, 0⟩).1) :=
  ⟨rfl, initApolloClient_browser_singleton ⟨false, none, 0⟩ rfl none
    (some [(allCharactersKey, ⟨⟨[⟨2, "Morty"⟩]⟩⟩)]) none none⟩

/-- C4: whenever the query reports an error, `IndexPage` renders the
generic error indicator, which contains no keyed list entries — no
partial-data rendering even when data fields resolved. -/
theorem indexPage_error_no_data (q : UseQueryResult) (h : q.error = true) :
    IndexPage q = some errorHtml ∧ ulEntries errorHtml = [] := by
  simp [IndexPage, h, errorHtml, ulEntries, ulEntriesList]

/-- C4 witness: an errored result that nevertheless carries resolved
data renders the error indicator with no list entries. -/
theorem indexPage_error_no_data_witness :
    (⟨false, true, some ⟨⟨[⟨1, "Rick"⟩]⟩⟩⟩ : UseQueryResult).error = true ∧
    (IndexPage ⟨false, true, some ⟨⟨[⟨1, "Rick"⟩]⟩⟩⟩ = some errorHtml ∧
      ulEntries errorHtml = []) :=
  ⟨rfl, indexPage_error_no_data ⟨false, true, some ⟨⟨[⟨1, "Rick"⟩]⟩⟩⟩ rfl⟩

/-- C5: for a successful response with no error, `IndexPage` produces
exactly one keyed list entry per result record, in response order, keyed
by the record's `id`; in particular the response
`[{id:1,name:"Rick"},{id:2,name:"Morty"}]` yields exactly those two
entries in that order. -/
theorem indexPage_success_entries (d : QueryData) :
    IndexPage ⟨false, false, some d⟩ = some (successHtml d) ∧
    ulEntries (successHtml d) = (d.characters.results.map fun r => (r.id, [r.name])) ∧
    ulEntries (successHtml ⟨⟨[⟨1, "Rick"⟩, ⟨2, "Morty"⟩]⟩⟩) =
      [(1, ["Rick"]), (2, ["Morty"])] := by
  refine ⟨by simp [IndexPage], ulEntries_successHtml d, ?_⟩
  simp [ulEntries_successHtml]

/-- C6: when `getDataFromTree` throws, the failure never aborts the
response: the error is caught and logged, `getInitialProps` still returns
normally with the page's props and the extracted (unfilled) cache, and
the page renders in its loading state. -/
theorem getDataFromTree_failure_swallowed (pageProps : PageProps)
    (walk : Snapshot → Snapshot × Option String) (ctx : Ctx) (w : World)
    (hs : w.isServer = true) (hr : ctx.resFinished = false)
    (ha : ctx.hasAppTree = true) (e : String) (cache1 : Snapshot)
    (hw : walk (initOnContext ctx w).1.cache = (cache1, some e))
    (hempty : cache1.lookup allCharactersKey = none) :
    getInitialPropsWithApollo true pageProps walk ctx w =
      (⟨pageProps, some cache1, some { (initOnContext ctx w).1 with cache := cache1 }⟩,
        (initOnContext ctx w).2.2,
        ["Error while running getDataFromTree: " ++ e]) ∧
    IndexPage (queryStateOf cache1) = some loadingHtml := by
  constructor
  · simp [getInitialPropsWithApollo, hs, hr, ha, hw]
  · simp [queryStateOf, hempty, IndexPage]

/-- C6 witness: a concrete server request whose tree walk throws
`"boom"`; the call returns normally with the error logged and the page in
its loading state. -/
theorem getDataFromTree_failure_swallowed_witness :
    ((⟨true, none, 0⟩ : World).isServer = true ∧
      (⟨false, none, none, false, true⟩ : Ctx).resFinished = false ∧
      (⟨false, none, none, false, true⟩ : Ctx).hasAppTree = true ∧
      (fun _ : Snapshot => (([] : Snapshot), some "boom"))
          (initOnContext ⟨false, none, none, false, true⟩ ⟨true, none, 0⟩).1.cache =
        ([], some "boom") ∧
      ([] : Snapshot).lookup allCharactersKey = none) ∧
    (getInitialPropsWithApollo true []
        (fun _ : Snapshot => (([] : Snapshot), some "boom"))
        ⟨false, none, none, false, true⟩ ⟨true, none, 0⟩ =
      (⟨[], some [],
          some { (initOnContext ⟨false, none, none, false, true⟩ ⟨true, none, 0⟩).1 with
            cache := [] }⟩,
        (initOnContext ⟨false, none, none, false, true⟩ ⟨true, none, 0⟩).2.2,
        ["Error while running getDataFromTree: " ++ "boom"]) ∧
      IndexPage (queryStateOf []) = some loadingHtml) :=
  ⟨⟨rfl, rfl, rfl, rfl, rfl⟩,
    getDataFromTree_failure_swallowed []
      (fun _ => ([], some "boom")) ⟨false, none, none, false, true⟩ ⟨true, none, 0⟩
      rfl rfl rfl "boom" [] rfl rfl⟩

/-- C7: with `ssr: true`, a server request whose tree walk resolves the
query leaves the fetched data in the extracted state, and the page
rendered from that state carries every record name as literal text;
with client-only rendering, the initial pre-fetch render (no injected
client or snapshot, fresh session) is the loading indicator, whose text
does not contain the record names. -/
theorem ssr_markup_contains_names (d : QueryData) (r : Character)
    (hr : r ∈ d.characters.results) (hn : r.name ≠ "Loading...")
    (pageProps : PageProps) (ctx : Ctx) (w : World) (wb : World)
    (hs : w.isServer = true) (hrf : ctx.resFinished = false)
    (ht : ctx.hasAppTree = true) (hwb : wb.globalApolloClient = none) :
    IndexPage (queryStateOf
        ((getInitialPropsWithApollo true pageProps
            (fun c => ((allCharactersKey, d) :: c, none)) ctx w).1.apolloState.getD [])) =
      some (successHtml d) ∧
    r.name ∈ htmlTexts (successHtml d) ∧
    IndexPage (queryStateOf (withApolloClientChoice none none wb).1.cache) =
      some loadingHtml ∧
    r.name ∉ htmlTexts loadingHtml := by
  refine ⟨?_, ?_, ?_, ?_⟩
  · simp [getInitialPropsWithApollo, hs, hrf, ht, queryStateOf, allCharactersKey,
      IndexPage]
  · simp only [htmlTexts_successHtml, List.mem_cons, List.mem_map]
    exact Or.inr ⟨r, hr, rfl⟩
  · cases hb : wb.isServer <;>
      simp [withApolloClientChoice, initApolloClient, createApolloClient, hb, hwb,
        queryStateOf, IndexPage]
  · simp [loadingHtml, htmlTexts, htmlTextsList, hn]

/-- C7 witness: the Rick/Morty response rendered through the SSR
pipeline contains "Rick" as literal text, and the client-only pre-fetch
render does not. -/
theorem ssr_markup_contains_names_witness :
    ((⟨1, "Rick"⟩ : Character) ∈
        (⟨⟨[⟨1, "Rick"⟩, ⟨2, "Morty"⟩]⟩⟩ : QueryData).characters.results ∧
      (⟨1, "Rick"⟩ : Character).name ≠ "Loading..." ∧
      (⟨true, none, 0⟩ : World).isServer = true ∧
      (⟨false, none, none, false, true⟩ : Ctx).resFinished = false ∧
      (⟨false, none, none, false, true⟩ : Ctx).hasAppTree = true ∧
      (⟨false, none, 0⟩ : World).globalApolloClient = none) ∧
    (IndexPage (queryStateOf
        ((getInitialPropsWithApollo true []
            (fun c => ((allCharactersKey, ⟨⟨[⟨1, "Rick"⟩, ⟨2, "Morty"⟩]⟩⟩) :: c, none))
            ⟨false, none, none, false, true⟩ ⟨true, none, 0⟩).1.apolloState.getD [])) =
        some (successHtml ⟨⟨[⟨1, "Rick"⟩, ⟨2, "Morty"⟩]⟩⟩) ∧
      (⟨1, "Rick"⟩ : Character).name ∈
        htmlTexts (successHtml ⟨⟨[⟨1, "Rick"⟩, ⟨2, "Morty"⟩]⟩⟩) ∧
      IndexPage (queryStateOf (withApolloClientChoice none none ⟨false, none, 0⟩).1.cache) =
        some loadingHtml ∧
      (⟨1, "Rick"⟩ : Character).name ∉ htmlTexts loadingHtml) :=
  ⟨⟨by simp, by decide, rfl, rfl, rfl, rfl⟩,
    ssr_markup_contains_names ⟨⟨[⟨1, "Rick"⟩, ⟨2, "Morty"⟩]⟩⟩ ⟨1, "Rick"⟩
      (by simp) (by decide) [] ⟨false, none, none, false, true⟩
      ⟨true, none, 0⟩ ⟨false, none, 0⟩ rfl rfl rfl rfl⟩

/-- C8: `IndexPage` tests `error` before `loading`, so when both are
set it renders the error indicator and not the loading indicator. -/
theorem indexPage_error_before_loading (q : UseQueryResult)
    (he : q.error = true) (hl : q.loading = true) :
    IndexPage q = some errorHtml ∧ IndexPage q ≠ some loadingHtml := by
  constructor
  · simp [IndexPage, he]
  · simp [IndexPage, he, errorHtml, loadingHtml]

/-- C8 witness: a state with both flags set renders the error
indicator. -/
theorem indexPage_error_before_loading_witness :
    ((⟨true, true, none⟩ : UseQueryResult).error = true ∧
      (⟨true, true, none⟩ : UseQueryResult).loading = true) ∧
    (IndexPage ⟨true, true, none⟩ = some errorHtml ∧
      IndexPage ⟨true, true, none⟩ ≠ some loadingHtml) :=
  ⟨⟨rfl, rfl⟩, indexPage_error_before_loading ⟨true, true, none⟩ rfl rfl⟩

/-- C9: whatever the walk does — succeed or throw — `getInitialProps`
on the server returns the wrapped page's props unchanged, extended with
`apolloState` extracted from the client's cache as the walk left it, and
with the context's client. -/
theorem getInitialProps_extends_props (pageProps : PageProps)
    (walk : Snapshot → Snapshot × Option String) (ctx : Ctx) (w : World)
    (hs : w.isServer = true) (hr : ctx.resFinished = false)
    (ha : ctx.hasAppTree = true) :
    (getInitialPropsWithApollo true pageProps walk ctx w).1.pageProps = pageProps ∧
    (getInitialPropsWithApollo true pageProps walk ctx w).1.apolloState =
      some (walk (initOnContext ctx w).1.cache).1 ∧
    (getInitialPropsWithApollo true pageProps walk ctx w).1.apolloClient =
      some { (initOnContext ctx w).1 with
        cache := (walk (initOnContext ctx w).1.cache).1 } := by
  refine ⟨?_, ?_, ?_⟩ <;> simp [getInitialPropsWithApollo, hs, hr, ha]

/-- C9 witness: a walk that throws after writing a partial entry still
yields the page props unchanged and the partial cache as
`apolloState`. -/
theorem getInitialProps_extends_props_witness :
    ((⟨true, none, 0⟩ : World).isServer = true ∧
      (⟨false, none, none, false, true⟩ : Ctx).resFinished = false ∧
      (⟨false, none, none, false, true⟩ : Ctx).hasAppTree = true) ∧
    ((getInitialPropsWithApollo true [("k", "v")]
        (fun _ => ([(allCharactersKey, ⟨⟨[⟨1, "Rick"⟩]⟩⟩)], some "partial failure"))
        ⟨false, none, none, false, true⟩ ⟨true, none, 0⟩).1.pageProps = [("k", "v")] ∧
      (getInitialPropsWithApollo true [("k", "v")]
        (fun _ => ([(allCharactersKey, ⟨⟨[⟨1, "Rick"⟩]⟩⟩)], some "partial failure"))
        ⟨false, none, none, false, true⟩ ⟨true, none, 0⟩).1.apolloState =
        some ((fun _ : Snapshot =>
            (([(allCharactersKey, ⟨⟨[⟨1, "Rick"⟩]⟩⟩)] : Snapshot), some "partial failure"))
          (initOnContext ⟨false, none, none, false, true⟩ ⟨true, none, 0⟩).1.cache).1 ∧
      (getInitialPropsWithApollo true [("k", "v")]
        (fun _ => ([(allCharactersKey, ⟨⟨[⟨1, "Rick"⟩]⟩⟩)], some "partial failure"))
        ⟨false, none, none, false, true⟩ ⟨true, none, 0⟩).1.apolloClient =
        some { (initOnContext ⟨false, none, none, false, true⟩ ⟨true, none, 0⟩).1 with
          cache := ((fun _ : Snapshot =>
              (([(allCharactersKey, ⟨⟨[⟨1, "Rick"⟩]⟩⟩)] : Snapshot), some "partial failure"))
            (initOnContext ⟨false, none, none, false, true⟩ ⟨true, none, 0⟩).1.cache).1 }) :=
  ⟨⟨rfl, rfl, rfl⟩,
    getInitialProps_extends_props [("k", "v")]
      (fun _ => ([(allCharactersKey, ⟨⟨[⟨1, "Rick"⟩]⟩⟩)], some "partial failure"))
      ⟨false, none, none, false, true⟩ ⟨true, none, 0⟩ rfl rfl rfl⟩

/-- C10: the client installed by `initOnContext` always has its `toJSON`
overridden to return `null`, so JSON serialization of the page payload
drops the `apolloClient` prop, and the browser-side `WithApollo` wrapper
then takes the branch that provisions its own client from the serialized
snapshot via `initApolloClient(apolloState, undefined)`. -/
theorem apolloClient_not_transferred (ctx : Ctx) (w : World)
    (s : Option Snapshot) (wb : World) :
    (initOnContext ctx w).1.toJSONNull = true ∧
    toJSONClient (initOnContext ctx w).1 = none ∧
    withApolloClientChoice (toJSONClient (initOnContext ctx w).1) s wb =
      initApolloClient s none wb := by
  refine ⟨?_, ?_, ?_⟩ <;>
    simp [initOnContext, toJSONClient, withApolloClientChoice]

end ReactGraphqlSsr
